import Mathlib

/-!
A shallow embedding of `src/exceptions-wrapper.cpp` from the
`rust-exceptions` repository, together with proofs of the specified
properties of its capture / propagate / inspect / rethrow protocol.

Modelling conventions:
* Machine words are `Nat`.
* A C++ exception in flight is a value of `CppExc`: either a thrown
  `FakeTraitObject` (the cross-boundary carrier), a value derived from
  `std::exception` carrying a message (its `what()` text), or any other
  thrown value (represented by an uninterpreted `Nat` tag).
* `std::exception_ptr` tokens are modelled as the exception they refer to,
  so `std::current_exception()` inside a catch handler is the handled
  exception itself.
* Heap allocation performed by `cpp_try` is made explicit: the function is
  parametrised by the address `freshAddr` the allocator would hand out, and
  its result records the list of boxes allocated during the call (in order).
* The out-parameter `bool* caught_rust` is modelled by passing the initial
  contents of the pointed-to cell in and returning its final contents.
* Functions that raise rather than return are given explicit outcome types;
  `cpp_try` returns `Except CppExc _`, where the `.error` case would be an
  exception escaping the trampoline uncaught.
-/

/-- `struct FakeTraitObject { void* p0; void* p1; }` — the two-word opaque
handle for a foreign (Rust) exception. -/
structure FakeTraitObject where
  p0 : Nat
  p1 : Nat
deriving DecidableEq, Repr

/-- A C++ exception in flight, classified by which catch clause of
`cpp_try` can match it: a thrown `FakeTraitObject` (matched by
`catch (FakeTraitObject&)`), a value derived from `std::exception` with
`what()` text `msg` (matched by `catch (std::exception&)`), or any other
thrown value (matched only by `catch (...)`). -/
inductive CppExc where
  | fakeTraitObject (fto : FakeTraitObject)
  | stdException (msg : String)
  | other (tag : Nat)
deriving DecidableEq, Repr

/-- The three concrete subclasses of the abstract base
`struct NativeCppException` in the source:
`RustExceptionAsCppException` stores a `FakeTraitObject`,
`UnknownException` stores an `std::exception_ptr`,
`StandardException` stores an `std::exception_ptr` plus a copy of the
message text (`std::string message`). -/
inductive NativeCppException where
  | RustExceptionAsCppException (exception : FakeTraitObject)
  | UnknownException (exception : CppExc)
  | StandardException (ptr : CppExc) (message : String)
deriving DecidableEq, Repr

/-- The virtual `what()` of `NativeCppException`:
`RustExceptionAsCppException::what` returns `"<rust exception>"`,
`UnknownException::what` returns `"<unknown exception>"`,
`StandardException::what` returns the stored message copy. -/
def NativeCppException.what : NativeCppException → String
  | .RustExceptionAsCppException _ => "<rust exception>"
  | .UnknownException _ => "<unknown exception>"
  | .StandardException _ message => message

/-- Outcome of the virtual `get_exception_ptr()`: either the stored
`std::exception_ptr`, or the `assert(false && ...)` fatal abort of
`RustExceptionAsCppException::get_exception_ptr`. -/
inductive GetPtrOutcome where
  | ok (ptr : CppExc)
  | fatalAssert (msg : String)
deriving DecidableEq, Repr

/-- The virtual `get_exception_ptr()` of `NativeCppException`:
`RustExceptionAsCppException::get_exception_ptr` hits
`assert(false && "Expected a C++ exception, but was a Rust exception.")`;
the other two variants return their stored `std::exception_ptr`. -/
def NativeCppException.get_exception_ptr : NativeCppException → GetPtrOutcome
  | .RustExceptionAsCppException _ =>
      .fatalAssert "Expected a C++ exception, but was a Rust exception."
  | .UnknownException exception => .ok exception
  | .StandardException ptr _ => .ok ptr

/-- The result of a completed `cpp_try` call: the returned
`FakeTraitObject`, the final contents of the `bool` cell `caught_rust`
points to, and the list of `NativeCppException` boxes allocated with `new`
during the call (each one living at address `freshAddr`). -/
structure CppTryResult where
  fto : FakeTraitObject
  caught_rust : Bool
  allocated : List NativeCppException
deriving DecidableEq, Repr

/-- `cpp_try(try_block, state, caught_rust)`.

`try_block` is modelled by its observable behaviour: `none` if the callback
returns normally, `some e` if it raises the exception `e`.  `caught_rust0`
is the initial contents of the cell `caught_rust` points to, and
`freshAddr` is the address the allocator hands out if `new` is reached.

The body initialises `fto = {0}` (both words zero), runs the callback, and
handles a raised exception with three catch clauses in source order:
`catch (FakeTraitObject&)` sets `*caught_rust = true` and copies the caught
value into `fto`; `catch (std::exception&)` sets `*caught_rust = false` and
stores `new StandardException{std::current_exception(), exception}` in
`fto.p0`; `catch (...)` sets `*caught_rust = false` and stores
`new UnknownException{std::current_exception()}` in `fto.p0`.  An `.error`
result would be an exception escaping `cpp_try` uncaught; the trailing
wildcard arm is the `catch (...)` clause, so none does. -/
def cpp_try (try_block : Option CppExc) (caught_rust0 : Bool) (freshAddr : Nat) :
    Except CppExc CppTryResult :=
  match try_block with
  | none =>
      .ok { fto := { p0 := 0, p1 := 0 }, caught_rust := caught_rust0, allocated := [] }
  | some (CppExc.fakeTraitObject exception) =>
      .ok { fto := exception, caught_rust := true, allocated := [] }
  | some (CppExc.stdException msg) =>
      .ok { fto := { p0 := freshAddr, p1 := 0 }, caught_rust := false,
            allocated := [NativeCppException.StandardException (CppExc.stdException msg) msg] }
  | some exception =>
      .ok { fto := { p0 := freshAddr, p1 := 0 }, caught_rust := false,
            allocated := [NativeCppException.UnknownException exception] }

/-- `cpp_throw_rust(fto)`: `throw fto;` — the exception it raises. -/
def cpp_throw_rust (fto : FakeTraitObject) : CppExc :=
  CppExc.fakeTraitObject fto

/-- Outcome of `cpp_rethrow`: either the `assert` fatal abort reached via
`RustExceptionAsCppException::get_exception_ptr`, or the exception raised
by `std::rethrow_exception` (which never returns normally, so there is no
normal-return outcome). -/
inductive RethrowOutcome where
  | fatalAssert (msg : String)
  | rethrown (exception : CppExc)
deriving DecidableEq, Repr

/-- `cpp_rethrow(exception)`: casts the pointer to `NativeCppException*`,
calls `get_exception_ptr()`, and passes the token to
`std::rethrow_exception`. -/
def cpp_rethrow (exception : NativeCppException) : RethrowOutcome :=
  match exception.get_exception_ptr with
  | .fatalAssert msg => .fatalAssert msg
  | .ok exptr => .rethrown exptr

/-- `cpp_exception_what(exception)`: casts the pointer to
`NativeCppException*` and calls the virtual `what()`. -/
def cpp_exception_what (exception : NativeCppException) : String :=
  exception.what

/-- `cpp_throw_test_exception(message)`: throws a `TestException`, which
derives `std::exception` and whose `what()` returns the stored message —
so the exception it raises is a `std::exception` carrying `message`. -/
def cpp_throw_test_exception (message : String) : CppExc :=
  CppExc.stdException message

/-- The all-zero two-word handle `{0}` returned on normal completion. -/
def zeroFto : FakeTraitObject := { p0 := 0, p1 := 0 }

/-- C1: raising a native `std::exception` with message `m` inside
`cpp_try` yields `caught_rust = false` and a freshly allocated
`StandardException` (DescribedNative) box whose stored message — copied at
the moment of catch — and `cpp_exception_what` output both equal `m`. -/
theorem captured_std_exception_preserves_message
    (m : String) (b : Bool) (a : Nat) :
    cpp_try (some (CppExc.stdException m)) b a =
      Except.ok { fto := { p0 := a, p1 := 0 }, caught_rust := false,
                  allocated :=
                    [NativeCppException.StandardException (CppExc.stdException m) m] } ∧
    cpp_exception_what
        (NativeCppException.StandardException (CppExc.stdException m) m) = m := by
  constructor
  · rfl
  · rfl

/-- C2: capturing a callback that re-raises a foreign handle `h` via
`cpp_throw_rust` yields `caught_rust = true`, a returned handle
bit-identical to `h`, and no heap allocation. -/
theorem foreign_passthrough_identity (h : FakeTraitObject) (b : Bool) (a : Nat) :
    cpp_try (some (cpp_throw_rust h)) b a =
      Except.ok { fto := h, caught_rust := true, allocated := [] } := by
  rfl

/-- C3: for every callback behaviour — normal return or any raised
exception — `cpp_try` completes normally: its result is always `Except.ok`,
never an exception escaping the boundary. -/
theorem cpp_try_never_escapes (tb : Option CppExc) (b : Bool) (a : Nat) :
    ∃ r : CppTryResult, cpp_try tb b a = Except.ok r := by
  match tb with
  | none => exact ⟨_, rfl⟩
  | some (CppExc.fakeTraitObject _) => exact ⟨_, rfl⟩
  | some (CppExc.stdException _) => exact ⟨_, rfl⟩
  | some (CppExc.other _) => exact ⟨_, rfl⟩

/-- C4: `cpp_rethrow` on a `RustExceptionAsCppException`
(ForeignPassthrough) box reaches the `assert(false && ...)` fatal abort: it
yields the fatal-assert outcome and never a rethrown exception (and its
outcome type has no normal-return case at all). -/
theorem rethrow_foreign_box_is_fatal (h : FakeTraitObject) :
    cpp_rethrow (NativeCppException.RustExceptionAsCppException h) =
      RethrowOutcome.fatalAssert
        "Expected a C++ exception, but was a Rust exception." ∧
    ∀ e : CppExc,
      cpp_rethrow (NativeCppException.RustExceptionAsCppException h) ≠
        RethrowOutcome.rethrown e := by
  constructor
  · rfl
  · intro e hcontra
    simp [cpp_rethrow, NativeCppException.get_exception_ptr] at hcontra

/-- C5: every box allocated by `cpp_try` while catching an exception `e`
(necessarily a `StandardException` or `UnknownException`) is rethrown by
`cpp_rethrow` as exactly the exception token captured at trampoline time:
the original exception `e` itself, with its dynamic type and message
intact; `cpp_rethrow` never returns normally on it. -/
theorem rethrow_native_box_restores_original
    (e : CppExc) (b : Bool) (a : Nat) (r : CppTryResult)
    (hr : cpp_try (some e) b a = Except.ok r)
    (box : NativeCppException) (hbox : box ∈ r.allocated) :
    cpp_rethrow box = RethrowOutcome.rethrown e := by
  match e with
  | CppExc.fakeTraitObject fto =>
      cases hr
      simp at hbox
  | CppExc.stdException msg =>
      cases hr
      simp at hbox
      subst hbox
      rfl
  | CppExc.other tag =>
      cases hr
      simp at hbox
      subst hbox
      rfl

/-- Witness for C5 at a concrete input: capturing a thrown
`std::exception` with message `"boom"` allocates one box, and rethrowing
that box yields the original exception. -/
theorem rethrow_native_box_restores_original_witness :
    cpp_rethrow
        (NativeCppException.StandardException (CppExc.stdException "boom") "boom") =
      RethrowOutcome.rethrown (CppExc.stdException "boom") :=
  rethrow_native_box_restores_original (CppExc.stdException "boom") true 1
    { fto := { p0 := 1, p1 := 0 }, caught_rust := false,
      allocated :=
        [NativeCppException.StandardException (CppExc.stdException "boom") "boom"] }
    rfl
    (NativeCppException.StandardException (CppExc.stdException "boom") "boom")
    (by simp)

/-- C6: a callback that returns normally yields the all-zero two-word
handle, allocates no box, and leaves the `caught_rust` cell at its initial
contents. -/
theorem normal_return_zero_handle_no_alloc (b : Bool) (a : Nat) :
    cpp_try none b a =
      Except.ok { fto := zeroFto, caught_rust := b, allocated := [] } := by
  rfl

/-- C7 counterexample: the claim says the discriminant is written only when
the returned handle is nonzero, but a callback that raises the all-zero
carrier handle `{0, 0}` makes `cpp_try` return the all-zero handle while
still writing `caught_rust` (from `false` to `true`). -/
theorem discriminant_write_zero_handle_counterexample :
    (cpp_try (some (CppExc.fakeTraitObject zeroFto)) false 1 =
      Except.ok { fto := zeroFto, caught_rust := true, allocated := [] }) ∧
    zeroFto = { p0 := 0, p1 := 0 } := by
  constructor
  · rfl
  · rfl

/-- C7 amended: the discriminant cell is written exactly when the callback
raises an exception: on normal return the cell keeps its initial contents
(and the handle is all-zero), while on any raised exception the final
contents are determined by the exception alone, independent of the
initial contents — even when the returned handle is the all-zero carrier
value. -/
theorem discriminant_written_iff_exception_caught :
    (∀ (b : Bool) (a : Nat),
      cpp_try none b a =
        Except.ok { fto := zeroFto, caught_rust := b, allocated := [] }) ∧
    (∀ (e : CppExc) (b0 b1 : Bool) (a : Nat) (r0 r1 : CppTryResult),
      cpp_try (some e) b0 a = Except.ok r0 →
      cpp_try (some e) b1 a = Except.ok r1 →
      r0.caught_rust = r1.caught_rust) := by
  constructor
  · intro b a
    rfl
  · intro e b0 b1 a r0 r1 h0 h1
    match e with
    | CppExc.fakeTraitObject fto =>
        cases h0
        cases h1
        rfl
    | CppExc.stdException msg =>
        cases h0
        cases h1
        rfl
    | CppExc.other tag =>
        cases h0
        cases h1
        rfl

/-- Witness for C7 amended at concrete inputs: a normal return with initial
contents `true` keeps them, and a raised `std::exception` drives the cell
to the same final contents from both initial values. -/
theorem discriminant_written_iff_exception_caught_witness :
    (cpp_try none true 1 =
      Except.ok { fto := zeroFto, caught_rust := true, allocated := [] }) ∧
    ({ fto := { p0 := 1, p1 := 0 }, caught_rust := false,
       allocated :=
         [NativeCppException.StandardException (CppExc.stdException "x") "x"] :
       CppTryResult }).caught_rust =
    ({ fto := { p0 := 1, p1 := 0 }, caught_rust := false,
       allocated :=
         [NativeCppException.StandardException (CppExc.stdException "x") "x"] :
       CppTryResult }).caught_rust :=
  ⟨discriminant_written_iff_exception_caught.1 true 1,
   discriminant_written_iff_exception_caught.2 (CppExc.stdException "x") false true 1
     _ _ rfl rfl⟩

/-- C8: a callback raising a value with no message capability (neither the
carrier type nor a `std::exception`) yields `caught_rust = false` and an
`UnknownException` (OpaqueNative) box whose `cpp_exception_what` output is
the fixed, non-empty placeholder `"<unknown exception>"`, independent of
the raised value. -/
theorem unknown_exception_placeholder (t : Nat) (b : Bool) (a : Nat) :
    cpp_try (some (CppExc.other t)) b a =
      Except.ok { fto := { p0 := a, p1 := 0 }, caught_rust := false,
                  allocated := [NativeCppException.UnknownException (CppExc.other t)] } ∧
    cpp_exception_what (NativeCppException.UnknownException (CppExc.other t)) =
      "<unknown exception>" ∧
    "<unknown exception>" ≠ "" := by
  refine ⟨rfl, rfl, ?_⟩
  decide

/-- C9: whenever `cpp_try` boxes a native exception (`caught_rust = false`
with a nonzero returned handle), the box pointer occupies only the first
word of the handle: `p0` is the allocation address, `p1` is zero, and
exactly one box was allocated. -/
theorem boxed_handle_uses_first_word_only
    (tb : Option CppExc) (b : Bool) (a : Nat) (r : CppTryResult)
    (hr : cpp_try tb b a = Except.ok r)
    (hnative : r.caught_rust = false) (hnz : r.fto ≠ zeroFto) :
    r.fto.p1 = 0 ∧ r.fto.p0 = a ∧ r.allocated.length = 1 := by
  match tb with
  | none =>
      cases hr
      exact absurd rfl hnz
  | some (CppExc.fakeTraitObject fto) =>
      cases hr
      simp at hnative
  | some (CppExc.stdException msg) =>
      cases hr
      exact ⟨rfl, rfl, rfl⟩
  | some (CppExc.other tag) =>
      cases hr
      exact ⟨rfl, rfl, rfl⟩

/-- Witness for C9 at a concrete input: catching a thrown `std::exception`
at allocation address `1` produces a handle whose second word is zero. -/
theorem boxed_handle_uses_first_word_only_witness :
    ({ fto := { p0 := 1, p1 := 0 }, caught_rust := false,
       allocated :=
         [NativeCppException.StandardException (CppExc.stdException "x") "x"] :
       CppTryResult }).fto.p1 = 0 ∧
    ({ fto := { p0 := 1, p1 := 0 }, caught_rust := false,
       allocated :=
         [NativeCppException.StandardException (CppExc.stdException "x") "x"] :
       CppTryResult }).fto.p0 = 1 ∧
    ({ fto := { p0 := 1, p1 := 0 }, caught_rust := false,
       allocated :=
         [NativeCppException.StandardException (CppExc.stdException "x") "x"] :
       CppTryResult }).allocated.length = 1 :=
  boxed_handle_uses_first_word_only (some (CppExc.stdException "x")) true 1 _
    rfl rfl (by decide)

/-- C10: `cpp_try` never allocates a `RustExceptionAsCppException`
(ForeignPassthrough) box — every allocated box is a `StandardException` or
an `UnknownException`, so `cpp_rethrow`'s fatal-assert branch is
unreachable on boxes produced by `cpp_try`; a caught foreign exception is
instead returned as the raw two-word handle with `caught_rust = true` and
no allocation. -/
theorem capture_never_boxes_foreign :
    (∀ (tb : Option CppExc) (b : Bool) (a : Nat) (r : CppTryResult)
       (box : NativeCppException),
       cpp_try tb b a = Except.ok r → box ∈ r.allocated →
       ((∃ p m, box = NativeCppException.StandardException p m) ∨
        (∃ p, box = NativeCppException.UnknownException p)) ∧
       (∀ h : FakeTraitObject,
         box ≠ NativeCppException.RustExceptionAsCppException h) ∧
       (∀ m : String, cpp_rethrow box ≠ RethrowOutcome.fatalAssert m)) ∧
    (∀ (h : FakeTraitObject) (b : Bool) (a : Nat),
       cpp_try (some (CppExc.fakeTraitObject h)) b a =
         Except.ok { fto := h, caught_rust := true, allocated := [] }) := by
  constructor
  · intro tb b a r box hr hbox
    match tb with
    | none =>
        cases hr
        simp at hbox
    | some (CppExc.fakeTraitObject fto) =>
        cases hr
        simp at hbox
    | some (CppExc.stdException msg) =>
        cases hr
        simp at hbox
        subst hbox
        refine ⟨Or.inl ⟨_, _, rfl⟩, ?_, ?_⟩
        · intro h hcontra
          simp at hcontra
        · intro m hcontra
          simp [cpp_rethrow, NativeCppException.get_exception_ptr] at hcontra
    | some (CppExc.other tag) =>
        cases hr
        simp at hbox
        subst hbox
        refine ⟨Or.inr ⟨_, rfl⟩, ?_, ?_⟩
        · intro h hcontra
          simp at hcontra
        · intro m hcontra
          simp [cpp_rethrow, NativeCppException.get_exception_ptr] at hcontra
  · intro h b a
    rfl

/-- Witness for C10 at a concrete input: the single box allocated while
catching a thrown `std::exception` is a `StandardException`, is not a
foreign-passthrough box, and rethrowing it is not fatal. -/
theorem capture_never_boxes_foreign_witness :
    ((∃ p m,
        NativeCppException.StandardException (CppExc.stdException "x") "x" =
          NativeCppException.StandardException p m) ∨
     (∃ p,
        NativeCppException.StandardException (CppExc.stdException "x") "x" =
          NativeCppException.UnknownException p)) ∧
    (∀ h : FakeTraitObject,
      NativeCppException.StandardException (CppExc.stdException "x") "x" ≠
        NativeCppException.RustExceptionAsCppException h) ∧
    (∀ m : String,
      cpp_rethrow (NativeCppException.StandardException (CppExc.stdException "x") "x") ≠
        RethrowOutcome.fatalAssert m) :=
  capture_never_boxes_foreign.1 (some (CppExc.stdException "x")) true 1
    { fto := { p0 := 1, p1 := 0 }, caught_rust := false,
      allocated :=
        [NativeCppException.StandardException (CppExc.stdException "x") "x"] }
    (NativeCppException.StandardException (CppExc.stdException "x") "x")
    rfl
    (by simp)
